import Mathlib

/-!
Verification of the canary-deployment rollout controller
(`src/canary_deployment.py`, class `CanaryDeployment`).

Shallow embedding: per-request outcomes carry a success flag and a latency;
latencies and derived rates are modelled as exact rationals (`ℚ`).  The
database collaborators (connect, setup, apply-change, rollback, promote) are
opaque effects; the embedding records which of them the controller invokes
as a list of events.  Randomness (`random.randint(1, 100)`) is modelled by a
per-request `draw` field supplied by the environment.
-/

namespace Canary

/-- One recorded request outcome (`{'success': ..., 'latency': ...}` appended
to `self.metrics[env]` in `simulate_traffic`). -/
structure Outcome where
  success : Bool
  latency : ℚ
  deriving Repr, DecidableEq

/-- The controller's `self.metrics` dictionary `{'stable': [...], 'canary': [...]}`. -/
structure Metrics where
  stable : List Outcome
  canary : List Outcome
  deriving Repr, DecidableEq

/-- The freshly initialised / reset metrics dictionary `{'stable': [], 'canary': []}`. -/
def Metrics.empty : Metrics := ⟨[], []⟩

/-- The per-variant summary produced by `analyze_metrics` for a variant with
at least one recorded outcome. -/
structure Summary where
  total_requests : ℕ
  success_count : ℕ
  error_rate : ℚ
  avg_latency : ℚ
  p95_latency : ℚ
  deriving Repr, DecidableEq

/-- The analysis dictionary returned by `analyze_metrics`: a key is present
iff the corresponding variant had at least one outcome. -/
structure Analysis where
  stable : Option Summary
  canary : Option Summary
  deriving Repr, DecidableEq

/-- `int(len(latencies) * 0.95)`: Python `float` multiplication by the literal
`0.95` followed by truncation, embedded as exact rational arithmetic with a
floor (truncation and floor agree on non-negative values). -/
def idx95 (n : ℕ) : ℕ := (⌊(n : ℚ) * (0.95 : ℚ)⌋).toNat

/-- The body of the `for env in ['stable', 'canary']` loop of `analyze_metrics`
for a single variant: `None` when the outcome list is empty (the loop
`continue`s, leaving the key absent), otherwise the summary record. -/
def summarize (l : List Outcome) : Option Summary :=
  if l.isEmpty then none
  else
    let successes := (l.filter (·.success)).length
    let total := l.length
    let error_rate : ℚ := if total > 0 then ((total - successes : ℕ) : ℚ) / total * 100 else 0
    let latencies := l.map (·.latency)
    let avg_latency : ℚ := if latencies.isEmpty then 0 else latencies.sum / latencies.length
    let p95_latency : ℚ :=
      if latencies.isEmpty then 0
      else (latencies.insertionSort (· ≤ ·)).getD (idx95 latencies.length) 0
    some ⟨total, successes, error_rate, avg_latency, p95_latency⟩

/-- `analyze_metrics`: reduce the current metrics window to per-variant
summaries, omitting any variant with no recorded outcomes. -/
def analyze_metrics (m : Metrics) : Analysis :=
  ⟨summarize m.stable, summarize m.canary⟩

/-- `should_rollback`: returns `false` when either variant's summary is
absent; otherwise `true` iff the canary error rate strictly exceeds twice the
stable error rate or the canary p95 latency strictly exceeds 1.5 times the
stable p95 latency. -/
def should_rollback (a : Analysis) : Bool :=
  match a.canary, a.stable with
  | some canary, some stable =>
      if canary.error_rate > stable.error_rate * 2 then true
      else if canary.p95_latency > stable.p95_latency * (1.5 : ℚ) then true
      else false
  | _, _ => false

/-- One simulated request as seen by `simulate_traffic`: the uniform draw
`random.randint(1, 100)` deciding the routing, together with the outcome
`execute_query` would observe on each environment (the query result depends
on which database serves it). -/
structure Request where
  draw : ℕ
  onStable : Outcome
  onCanary : Outcome
  deriving Repr, DecidableEq

/-- The routing test `random.randint(1, 100) <= self.canary_percentage`. -/
def use_canary (pct : ℕ) (draw : ℕ) : Bool := draw ≤ pct

/-- `simulate_traffic`: for each request, route by the draw against the
current canary percentage, execute the query on the chosen environment and
append the observed outcome to that environment's metrics list. -/
def simulate_traffic (pct : ℕ) (reqs : List Request) (m : Metrics) : Metrics :=
  match reqs with
  | [] => m
  | q :: rest =>
      let m' :=
        if use_canary pct q.draw then { m with canary := m.canary ++ [q.onCanary] }
        else { m with stable := m.stable ++ [q.onStable] }
      simulate_traffic pct rest m'

/-- Observable collaborator invocations of `run_canary_deployment`, in
program order: the canary schema change, each traffic stage, the rollback
action (`rollback_canary`), and the promotion of the change to stable. -/
inductive Event where
  | applyChange : Event
  | stage : ℕ → Event
  | rollbackAct : Event
  | promote : Event
  deriving Repr, DecidableEq

/-- Terminal phase of a deployment run. -/
inductive RunResult where
  | rolledBack : RunResult
  | promoted : RunResult
  deriving Repr, DecidableEq

/-- What one run of `run_canary_deployment` produces: the collaborator
events in order, the per-stage analyses in order, and the terminal phase. -/
structure RunTrace where
  events : List Event
  analyses : List Analysis
  result : RunResult
  deriving Repr, DecidableEq

/-- `run_canary_deployment` (after a successful `connect_all`/`setup`):
apply the change to canary, then run the 10%, 50% and 100% stages with 200
requests each, resetting `self.metrics` to `{'stable': [], 'canary': []}`
before the 50% and the 100% stage.  After the 10% and 50% stages the
controller calls `should_rollback` and, when it returns true, invokes
`rollback_canary` and returns; after the 100% stage it promotes the change
to stable unconditionally.  The environment supplies the three stages'
request streams `r1 r2 r3`. -/
def run_canary_deployment (r1 r2 r3 : List Request) : RunTrace :=
  let m := Metrics.empty
  let m := simulate_traffic 10 r1 m
  let a1 := analyze_metrics m
  if should_rollback a1 then
    ⟨[.applyChange, .stage 10, .rollbackAct], [a1], .rolledBack⟩
  else
    let m := Metrics.empty
    let m := simulate_traffic 50 r2 m
    let a2 := analyze_metrics m
    if should_rollback a2 then
      ⟨[.applyChange, .stage 10, .stage 50, .rollbackAct], [a1, a2], .rolledBack⟩
    else
      let m := Metrics.empty
      let m := simulate_traffic 100 r3 m
      let a3 := analyze_metrics m
      ⟨[.applyChange, .stage 10, .stage 50, .stage 100, .promote], [a1, a2, a3], .promoted⟩

/-- The controller state read and written by the `CanaryDeployment` methods
that matters to later decisions: the routing percentage and the metrics
window. -/
structure CtrlState where
  canary_percentage : ℕ
  metrics : Metrics
  deriving Repr, DecidableEq

/-- `should_rollback` as a method on the controller object: its body reads
only its `analysis` argument (the `logger.warning` calls are collaborator
output), so the state passes through untouched. -/
def should_rollback_method (s : CtrlState) (a : Analysis) : CtrlState × Bool :=
  (s, should_rollback a)

/-! ### Basic lemmas about the embedded operations -/

theorem idx95_eq_div (n : ℕ) : idx95 n = n * 95 / 100 := by
  have h : (n : ℚ) * (0.95 : ℚ) = ((n * 95 : ℕ) : ℚ) / ((100 : ℕ) : ℚ) := by
    push_cast; ring
  unfold idx95
  rw [h, Rat.floor_natCast_div_natCast]
  omega

theorem idx95_lt (n : ℕ) (hn : 0 < n) : idx95 n < n := by
  rw [idx95_eq_div]; omega

theorem summarize_eq_none_iff (l : List Outcome) : summarize l = none ↔ l = [] := by
  unfold summarize
  by_cases h : l.isEmpty <;> simp_all [List.isEmpty_iff]

theorem summarize_fields (l : List Outcome) (s : Summary) (h : summarize l = some s) :
    s.total_requests = l.length ∧
    s.success_count = (l.filter (·.success)).length ∧
    s.error_rate = ((l.length - (l.filter (·.success)).length : ℕ) : ℚ) / (l.length : ℚ) * 100 ∧
    s.avg_latency = (l.map (·.latency)).sum / ((l.map (·.latency)).length : ℚ) ∧
    s.p95_latency = ((l.map (·.latency)).insertionSort (· ≤ ·)).getD (idx95 l.length) 0 := by
  unfold summarize at h
  by_cases hl : l.isEmpty
  · simp [hl] at h
  · have hne : l ≠ [] := by simpa [List.isEmpty_iff] using hl
    have hpos : 0 < l.length := List.length_pos.mpr hne
    have hmapne : ¬(l.map (·.latency)).isEmpty := by
      simp [List.isEmpty_iff, hne]
    simp only [hl, if_false, Bool.false_eq_true, if_neg, hpos, if_pos, hmapne,
      List.length_map, Option.some.injEq] at h
    subst h
    refine ⟨rfl, rfl, ?_, ?_, rfl⟩ <;> simp [hpos]

theorem should_rollback_of_absent (a : Analysis)
    (h : a.stable = none ∨ a.canary = none) : should_rollback a = false := by
  obtain ⟨os, oc⟩ := a
  rcases os with _ | s
  · cases oc <;> rfl
  · rcases oc with _ | c
    · rfl
    · rcases h with h | h <;> simp at h

theorem should_rollback_both_iff (s c : Summary) :
    should_rollback ⟨some s, some c⟩ = true ↔
      (c.error_rate > s.error_rate * 2 ∨ c.p95_latency > s.p95_latency * (1.5 : ℚ)) := by
  by_cases h1 : c.error_rate > s.error_rate * 2 <;>
    by_cases h2 : c.p95_latency > s.p95_latency * (1.5 : ℚ) <;>
      simp [should_rollback, h1, h2]

theorem simulate_traffic_stable_100 (reqs : List Request) (m : Metrics)
    (h : ∀ q ∈ reqs, q.draw ≤ 100) :
    (simulate_traffic 100 reqs m).stable = m.stable ∧
    (simulate_traffic 100 reqs m).canary = m.canary ++ reqs.map (·.onCanary) := by
  induction reqs generalizing m with
  | nil => simp [simulate_traffic]
  | cons q rest ih =>
      have hq : use_canary 100 q.draw = true := by
        simp [use_canary]
        exact h q (List.mem_cons_self q rest)
      have hrest : ∀ q' ∈ rest, q'.draw ≤ 100 := fun q' hq' => h q' (List.mem_cons_of_mem q hq')
      simp only [simulate_traffic, hq, if_pos]
      obtain ⟨h1, h2⟩ := ih { m with canary := m.canary ++ [q.onCanary] } hrest
      exact ⟨h1, by simpa using h2⟩

theorem simulate_traffic_stable_mem (pct : ℕ) (reqs : List Request) (m : Metrics)
    (o : Outcome) (h : o ∈ (simulate_traffic pct reqs m).stable) :
    o ∈ m.stable ∨ ∃ q ∈ reqs, o = q.onStable := by
  induction reqs generalizing m with
  | nil => exact Or.inl h
  | cons q rest ih =>
      simp only [simulate_traffic] at h
      by_cases hq : use_canary pct q.draw
      · simp only [hq, if_pos] at h
        rcases ih _ h with h' | ⟨q', hq', rfl⟩
        · exact Or.inl h'
        · exact Or.inr ⟨q', List.mem_cons_of_mem q hq', rfl⟩
      · simp only [hq, if_neg, Bool.false_eq_true] at h
        rcases ih _ h with h' | ⟨q', hq', rfl⟩
        · rcases List.mem_append.mp h' with h'' | h''
          · exact Or.inl h''
          · exact Or.inr ⟨q, List.mem_cons_self q rest, List.mem_singleton.mp h''⟩
        · exact Or.inr ⟨q', List.mem_cons_of_mem q hq', rfl⟩

theorem simulate_traffic_canary_mem (pct : ℕ) (reqs : List Request) (m : Metrics)
    (o : Outcome) (h : o ∈ (simulate_traffic pct reqs m).canary) :
    o ∈ m.canary ∨ ∃ q ∈ reqs, o = q.onCanary := by
  induction reqs generalizing m with
  | nil => exact Or.inl h
  | cons q rest ih =>
      simp only [simulate_traffic] at h
      by_cases hq : use_canary pct q.draw
      · simp only [hq, if_pos] at h
        rcases ih _ h with h' | ⟨q', hq', rfl⟩
        · rcases List.mem_append.mp h' with h'' | h''
          · exact Or.inl h''
          · exact Or.inr ⟨q, List.mem_cons_self q rest, List.mem_singleton.mp h''⟩
        · exact Or.inr ⟨q', List.mem_cons_of_mem q hq', rfl⟩
      · simp only [hq, if_neg, Bool.false_eq_true] at h
        rcases ih _ h with h' | ⟨q', hq', rfl⟩
        · exact Or.inl h'
        · exact Or.inr ⟨q', List.mem_cons_of_mem q hq', rfl⟩

theorem summarize_all_success_error_rate (l : List Outcome) (s : Summary)
    (hs : summarize l = some s) (hall : ∀ o ∈ l, o.success = true) :
    s.error_rate = 0 := by
  obtain ⟨-, -, herr, -, -⟩ := summarize_fields l s hs
  have hfilter : l.filter (·.success) = l := List.filter_eq_self.mpr (by simpa using hall)
  rw [herr, hfilter]
  simp

theorem should_rollback_stage100 (r3 : List Request) (h : ∀ q ∈ r3, q.draw ≤ 100) :
    should_rollback (analyze_metrics (simulate_traffic 100 r3 Metrics.empty)) = false := by
  apply should_rollback_of_absent
  left
  have hst := (simulate_traffic_stable_100 r3 Metrics.empty h).1
  show summarize (simulate_traffic 100 r3 Metrics.empty).stable = none
  rw [hst]
  exact (summarize_eq_none_iff []).mpr rfl

/-- A successful request outcome with a 10 ms latency, used as sample data. -/
def okOutcome : Outcome := ⟨true, 10⟩

/-- A failed request outcome with a 10 ms latency, used as sample data. -/
def badOutcome : Outcome := ⟨false, 10⟩

/-! ### Claim theorems -/

/-- C2: with both summaries present, `should_rollback` returns true iff the
canary error rate strictly exceeds twice the stable error rate or the canary
p95 latency strictly exceeds 1.5 times the stable p95 latency; at exact
equality of the error rates (latency check not firing) it returns false. -/
theorem c2_should_rollback_thresholds (s c : Summary) :
    (should_rollback ⟨some s, some c⟩ = true ↔
      (c.error_rate > s.error_rate * 2 ∨ c.p95_latency > s.p95_latency * (1.5 : ℚ))) ∧
    (c.error_rate = s.error_rate * 2 →
      ¬(c.p95_latency > s.p95_latency * (1.5 : ℚ)) →
      should_rollback ⟨some s, some c⟩ = false) := by
  refine ⟨should_rollback_both_iff s c, fun he hl => ?_⟩
  have h1 : ¬(c.error_rate > s.error_rate * 2) := by rw [he]; exact lt_irrefl _
  simp [should_rollback, h1, hl]

/-- Witness for C2 at a concrete boundary input: stable error rate 2, canary
error rate exactly 4, equal p95 latencies — no rollback. -/
theorem c2_should_rollback_thresholds_witness :
    should_rollback ⟨some ⟨100, 98, 2, 10, 10⟩, some ⟨100, 96, 4, 10, 10⟩⟩ = false :=
  (c2_should_rollback_thresholds ⟨100, 98, 2, 10, 10⟩ ⟨100, 96, 4, 10, 10⟩).2
    (by norm_num) (by norm_num)

/-- C6: when either variant's summary is absent from the analysis,
`should_rollback` returns false. -/
theorem c6_absent_summary_no_rollback (a : Analysis)
    (h : a.stable = none ∨ a.canary = none) : should_rollback a = false :=
  should_rollback_of_absent a h

/-- Witness for C6 at a concrete input with the stable summary absent. -/
theorem c6_absent_summary_no_rollback_witness :
    should_rollback ⟨none, some ⟨1, 1, 0, 5, 5⟩⟩ = false :=
  c6_absent_summary_no_rollback ⟨none, some ⟨1, 1, 0, 5, 5⟩⟩ (Or.inl rfl)

/-- C7: with both summaries present and a stable error rate of exactly 0, any
positive canary error rate makes `should_rollback` return true. -/
theorem c7_zero_stable_error_rate (s c : Summary)
    (h0 : s.error_rate = 0) (hc : 0 < c.error_rate) :
    should_rollback ⟨some s, some c⟩ = true := by
  have h1 : c.error_rate > s.error_rate * 2 := by rw [h0]; simpa using hc
  simp [should_rollback, h1]

/-- Witness for C7 at a concrete input: stable error rate 0, canary error
rate 10. -/
theorem c7_zero_stable_error_rate_witness :
    should_rollback ⟨some ⟨50, 50, 0, 10, 10⟩, some ⟨50, 45, 10, 10, 10⟩⟩ = true :=
  c7_zero_stable_error_rate ⟨50, 50, 0, 10, 10⟩ ⟨50, 45, 10, 10, 10⟩ rfl (by norm_num)

/-- C9: `should_rollback` is deterministic and effect-free: invoked as a
method it leaves the controller state unchanged, a second invocation on the
same analysis returns the same boolean, and the boolean does not depend on
the controller state. -/
theorem c9_should_rollback_pure (st : CtrlState) (a : Analysis) :
    (should_rollback_method st a).1 = st ∧
    (should_rollback_method (should_rollback_method st a).1 a).2 =
      (should_rollback_method st a).2 ∧
    (∀ st' : CtrlState, (should_rollback_method st' a).2 = (should_rollback_method st a).2) :=
  ⟨rfl, rfl, fun _ => rfl⟩

/-- C10: at a 100% traffic split every draw of `randint(1, 100)` routes to
the canary, so the stable variant records nothing, its summary is absent,
and `should_rollback` on that stage's analysis is false. -/
theorem c10_full_split_all_canary (r3 : List Request) (h : ∀ q ∈ r3, q.draw ≤ 100) :
    (∀ q ∈ r3, use_canary 100 q.draw = true) ∧
    (simulate_traffic 100 r3 Metrics.empty).stable = [] ∧
    (simulate_traffic 100 r3 Metrics.empty).canary = r3.map (·.onCanary) ∧
    (analyze_metrics (simulate_traffic 100 r3 Metrics.empty)).stable = none ∧
    should_rollback (analyze_metrics (simulate_traffic 100 r3 Metrics.empty)) = false := by
  obtain ⟨h1, h2⟩ := simulate_traffic_stable_100 r3 Metrics.empty h
  refine ⟨fun q hq => by simpa [use_canary] using h q hq, h1, by simpa using h2, ?_,
    should_rollback_stage100 r3 h⟩
  show summarize (simulate_traffic 100 r3 Metrics.empty).stable = none
  rw [h1]
  exact (summarize_eq_none_iff []).mpr rfl

/-- A sample request: draw 50, failing on either environment. -/
def sampleBadReq : Request := ⟨50, badOutcome, badOutcome⟩

/-- Witness for C10 at a concrete one-request stream with draw 50. -/
theorem c10_full_split_all_canary_witness :
    (∀ q ∈ [sampleBadReq], use_canary 100 q.draw = true) ∧
    (simulate_traffic 100 [sampleBadReq] Metrics.empty).stable = [] ∧
    (simulate_traffic 100 [sampleBadReq] Metrics.empty).canary =
      [sampleBadReq].map (·.onCanary) ∧
    (analyze_metrics (simulate_traffic 100 [sampleBadReq] Metrics.empty)).stable = none ∧
    should_rollback (analyze_metrics (simulate_traffic 100 [sampleBadReq] Metrics.empty))
      = false :=
  c10_full_split_all_canary [sampleBadReq] (by simp [sampleBadReq])

/-- C1: once the run reaches the final 100% stage (no rollback at 10% or
50%), the controller reaches `Promoted` iff `should_rollback` is false for
the final stage's analysis — and it is necessarily false there, so promotion
never happens against a firing evaluator. -/
theorem c1_final_stage_promotion (r1 r2 r3 : List Request)
    (h3 : ∀ q ∈ r3, q.draw ≤ 100)
    (h1 : should_rollback (analyze_metrics (simulate_traffic 10 r1 Metrics.empty)) = false)
    (h2 : should_rollback (analyze_metrics (simulate_traffic 50 r2 Metrics.empty)) = false) :
    should_rollback (analyze_metrics (simulate_traffic 100 r3 Metrics.empty)) = false ∧
    ((run_canary_deployment r1 r2 r3).result = .promoted ↔
      should_rollback (analyze_metrics (simulate_traffic 100 r3 Metrics.empty)) = false) ∧
    Event.promote ∈ (run_canary_deployment r1 r2 r3).events := by
  have ha3 := should_rollback_stage100 r3 h3
  refine ⟨ha3, ?_, ?_⟩ <;> simp [run_canary_deployment, h1, h2, ha3]

/-- Witness for C1 with three empty request streams. -/
theorem c1_final_stage_promotion_witness :
    should_rollback (analyze_metrics (simulate_traffic 100 [] Metrics.empty)) = false ∧
    ((run_canary_deployment [] [] []).result = .promoted ↔
      should_rollback (analyze_metrics (simulate_traffic 100 [] Metrics.empty)) = false) ∧
    Event.promote ∈ (run_canary_deployment [] [] []).events :=
  c1_final_stage_promotion [] [] [] (by simp) rfl rfl

/-- C3: if the evaluator fires for any analysis the run records, the run
ends `RolledBack` with exactly one rollback invocation and no promotion; a
rollback at the 10% stage moreover means the 50% and 100% stages never
execute. -/
theorem c3_rollback_terminates_run (r1 r2 r3 : List Request)
    (h3 : ∀ q ∈ r3, q.draw ≤ 100) :
    ((∃ a ∈ (run_canary_deployment r1 r2 r3).analyses, should_rollback a = true) →
      (run_canary_deployment r1 r2 r3).result = .rolledBack ∧
      (run_canary_deployment r1 r2 r3).events.count .rollbackAct = 1 ∧
      Event.promote ∉ (run_canary_deployment r1 r2 r3).events) ∧
    (should_rollback (analyze_metrics (simulate_traffic 10 r1 Metrics.empty)) = true →
      (run_canary_deployment r1 r2 r3).events = [.applyChange, .stage 10, .rollbackAct] ∧
      Event.stage 50 ∉ (run_canary_deployment r1 r2 r3).events ∧
      Event.stage 100 ∉ (run_canary_deployment r1 r2 r3).events) := by
  have ha3 := should_rollback_stage100 r3 h3
  by_cases h1 : should_rollback (analyze_metrics (simulate_traffic 10 r1 Metrics.empty)) = true
  · constructor
    · intro _
      refine ⟨?_, ?_, ?_⟩ <;> simp [run_canary_deployment, h1, List.count_cons]
    · intro _
      refine ⟨?_, ?_, ?_⟩ <;> simp [run_canary_deployment, h1]
  · have h1' : should_rollback (analyze_metrics (simulate_traffic 10 r1 Metrics.empty)) = false :=
      Bool.eq_false_iff.mpr (by simpa using h1)
    refine ⟨?_, fun hc => absurd hc h1⟩
    by_cases h2 : should_rollback (analyze_metrics (simulate_traffic 50 r2 Metrics.empty)) = true
    · intro _
      refine ⟨?_, ?_, ?_⟩ <;> simp [run_canary_deployment, h1', h2, List.count_cons]
    · have h2' : should_rollback (analyze_metrics (simulate_traffic 50 r2 Metrics.empty))
          = false := Bool.eq_false_iff.mpr (by simpa using h2)
      intro hex
      exfalso
      rcases hex with ⟨a, ha, hsr⟩
      have hmem : a = analyze_metrics (simulate_traffic 10 r1 Metrics.empty) ∨
          a = analyze_metrics (simulate_traffic 50 r2 Metrics.empty) ∨
          a = analyze_metrics (simulate_traffic 100 r3 Metrics.empty) := by
        simpa [run_canary_deployment, h1', h2'] using ha
      rcases hmem with h | h | h
      · rw [h] at hsr; exact absurd hsr (by simp [h1'])
      · rw [h] at hsr; exact absurd hsr (by simp [h2'])
      · rw [h] at hsr; exact absurd hsr (by simp [ha3])

/-- A concrete 10%-stage request stream whose canary outcome fails while the
stable outcome succeeds, driving the evaluator to fire. -/
def rollbackStream : List Request := [⟨5, badOutcome, badOutcome⟩, ⟨80, okOutcome, okOutcome⟩]

/-- Witness for C3: a run whose 10% stage fires the evaluator rolls back,
invokes the rollback action exactly once, and never reaches the 50% or 100%
stage or a promotion. -/
theorem c3_rollback_terminates_run_witness :
    (run_canary_deployment rollbackStream [] []).result = .rolledBack ∧
    (run_canary_deployment rollbackStream [] []).events.count .rollbackAct = 1 ∧
    Event.promote ∉ (run_canary_deployment rollbackStream [] []).events ∧
    (run_canary_deployment rollbackStream [] []).events
      = [.applyChange, .stage 10, .rollbackAct] ∧
    Event.stage 50 ∉ (run_canary_deployment rollbackStream [] []).events ∧
    Event.stage 100 ∉ (run_canary_deployment rollbackStream [] []).events := by
  have h := c3_rollback_terminates_run rollbackStream [] [] (by simp)
  have h10 : should_rollback
      (analyze_metrics (simulate_traffic 10 rollbackStream Metrics.empty)) = true := by
    norm_num [rollbackStream, simulate_traffic, use_canary, analyze_metrics, summarize,
      Metrics.empty, should_rollback, badOutcome, okOutcome, idx95_eq_div]
  have hmem : analyze_metrics (simulate_traffic 10 rollbackStream Metrics.empty)
      ∈ (run_canary_deployment rollbackStream [] []).analyses := by
    simp [run_canary_deployment, h10]
  obtain ⟨ha, hb⟩ := h
  obtain ⟨hr, hcnt, hnp⟩ := ha ⟨_, hmem, h10⟩
  obtain ⟨hev, h50, h100⟩ := hb h10
  exact ⟨hr, hcnt, hnp, hev, h50, h100⟩

theorem summarize_spec (l : List Outcome) :
    (summarize l = none ↔ l = []) ∧
    (∀ s, summarize l = some s →
      0 < s.total_requests ∧
      s.total_requests = l.length ∧
      s.success_count = (l.filter (·.success)).length ∧
      s.error_rate = ((s.total_requests - s.success_count : ℕ) : ℚ) / (s.total_requests : ℚ) * 100 ∧
      s.avg_latency = (l.map (·.latency)).sum / ((l.map (·.latency)).length : ℚ)) := by
  refine ⟨summarize_eq_none_iff l, fun s hs => ?_⟩
  obtain ⟨ht, hsc, herr, havg, -⟩ := summarize_fields l s hs
  have hne : l ≠ [] := by
    intro h
    rw [(summarize_eq_none_iff l).mpr h] at hs
    cases hs
  have hpos : 0 < l.length := List.length_pos.mpr hne
  refine ⟨ht ▸ hpos, ht, hsc, ?_, havg⟩
  rw [herr, ht, hsc]

/-- C4: `analyze_metrics` omits a variant iff that variant recorded no
outcomes, and every present summary satisfies
`error_rate = (total - success_count) / total * 100` and
`avg_latency = mean of the recorded latencies`. -/
theorem c4_analyze_omission_and_formulas (m : Metrics) :
    ((analyze_metrics m).stable = none ↔ m.stable = []) ∧
    ((analyze_metrics m).canary = none ↔ m.canary = []) ∧
    (∀ s, (analyze_metrics m).stable = some s →
      0 < s.total_requests ∧
      s.total_requests = m.stable.length ∧
      s.success_count = (m.stable.filter (·.success)).length ∧
      s.error_rate = ((s.total_requests - s.success_count : ℕ) : ℚ) / (s.total_requests : ℚ) * 100 ∧
      s.avg_latency = (m.stable.map (·.latency)).sum / ((m.stable.map (·.latency)).length : ℚ)) ∧
    (∀ s, (analyze_metrics m).canary = some s →
      0 < s.total_requests ∧
      s.total_requests = m.canary.length ∧
      s.success_count = (m.canary.filter (·.success)).length ∧
      s.error_rate = ((s.total_requests - s.success_count : ℕ) : ℚ) / (s.total_requests : ℚ) * 100 ∧
      s.avg_latency = (m.canary.map (·.latency)).sum / ((m.canary.map (·.latency)).length : ℚ)) :=
  ⟨(summarize_spec m.stable).1, (summarize_spec m.canary).1,
    (summarize_spec m.stable).2, (summarize_spec m.canary).2⟩

/-- Witness for C4 at a concrete window: empty stable buffer (summary
omitted), one successful canary outcome (summary present, error rate 0%
by the formula). -/
theorem c4_analyze_omission_and_formulas_witness :
    (analyze_metrics ⟨[], [okOutcome]⟩).stable = none ∧
    (∃ s, (analyze_metrics ⟨[], [okOutcome]⟩).canary = some s ∧
      s.error_rate = ((s.total_requests - s.success_count : ℕ) : ℚ) / (s.total_requests : ℚ) * 100 ∧
      s.avg_latency = (([okOutcome] : List Outcome).map (·.latency)).sum /
        ((([okOutcome] : List Outcome).map (·.latency)).length : ℚ)) := by
  have h := c4_analyze_omission_and_formulas ⟨[], [okOutcome]⟩
  have hsome : (analyze_metrics ⟨[], [okOutcome]⟩).canary = some ⟨1, 1, 0, 10, 10⟩ := by
    norm_num [analyze_metrics, summarize, okOutcome, idx95_eq_div]
  obtain ⟨-, -, -, herr, havg⟩ := h.2.2.2 _ hsome
  exact ⟨h.1.mpr rfl, ⟨1, 1, 0, 10, 10⟩, hsome, herr, havg⟩

/-- The ten-outcome window with latencies 10, 20, ..., 100 ms, all
successful. -/
def tenLatWindow : List Outcome :=
  [⟨true, 10⟩, ⟨true, 20⟩, ⟨true, 30⟩, ⟨true, 40⟩, ⟨true, 50⟩,
   ⟨true, 60⟩, ⟨true, 70⟩, ⟨true, 80⟩, ⟨true, 90⟩, ⟨true, 100⟩]

/-- C5: the analyzer's p95 latency is the nearest-rank percentile: the
element at 0-indexed rank `⌊0.95 * n⌋` of the ascending-sorted latency
sequence; for the ten latencies 10, 20, ..., 100 it is 100, the maximum. -/
theorem c5_p95_nearest_rank :
    (∀ (l : List Outcome) (s : Summary), summarize l = some s →
      ∃ hrank : (⌊(0.95 : ℚ) * (l.length : ℚ)⌋).toNat
          < ((l.map (·.latency)).insertionSort (· ≤ ·)).length,
        ((l.map (·.latency)).insertionSort (· ≤ ·)).Sorted (· ≤ ·) ∧
        ((l.map (·.latency)).insertionSort (· ≤ ·)).Perm (l.map (·.latency)) ∧
        s.p95_latency = ((l.map (·.latency)).insertionSort (· ≤ ·)).get
          ⟨(⌊(0.95 : ℚ) * (l.length : ℚ)⌋).toNat, hrank⟩) ∧
    (∃ s, summarize tenLatWindow = some s ∧ s.p95_latency = 100) := by
  constructor
  · intro l s hs
    obtain ⟨-, -, -, -, hp95⟩ := summarize_fields l s hs
    have hne : l ≠ [] := by
      intro h
      rw [(summarize_eq_none_iff l).mpr h] at hs
      cases hs
    have hpos : 0 < l.length := List.length_pos.mpr hne
    have hcomm : (⌊(0.95 : ℚ) * (l.length : ℚ)⌋).toNat = idx95 l.length := by
      unfold idx95; rw [mul_comm]
    have hlen : ((l.map (·.latency)).insertionSort (· ≤ ·)).length = l.length := by
      rw [List.length_insertionSort, List.length_map]
    have h' : idx95 l.length < ((l.map (·.latency)).insertionSort (· ≤ ·)).length := by
      rw [hlen]; exact idx95_lt _ hpos
    have hrank : (⌊(0.95 : ℚ) * (l.length : ℚ)⌋).toNat
        < ((l.map (·.latency)).insertionSort (· ≤ ·)).length := by rw [hcomm]; exact h'
    refine ⟨hrank, List.sorted_insertionSort _ _, List.perm_insertionSort _ _, ?_⟩
    rw [hp95, List.getD_eq_getElem _ _ h']
    simp [List.get_eq_getElem, hcomm]
  · refine ⟨⟨10, 10, 0, 55, 100⟩, ?_, rfl⟩
    norm_num [summarize, tenLatWindow, idx95_eq_div, List.insertionSort, List.orderedInsert]

/-- Witness for C5: the general nearest-rank statement instantiated at a
one-element window. -/
theorem c5_p95_nearest_rank_witness :
    ∃ hrank : (⌊(0.95 : ℚ) * (([okOutcome] : List Outcome).length : ℚ)⌋).toNat
        < ((([okOutcome] : List Outcome).map (·.latency)).insertionSort (· ≤ ·)).length,
      ((([okOutcome] : List Outcome).map (·.latency)).insertionSort (· ≤ ·)).Sorted (· ≤ ·) ∧
      ((([okOutcome] : List Outcome).map (·.latency)).insertionSort (· ≤ ·)).Perm
        (([okOutcome] : List Outcome).map (·.latency)) ∧
      (⟨1, 1, 0, 10, 10⟩ : Summary).p95_latency =
        ((([okOutcome] : List Outcome).map (·.latency)).insertionSort (· ≤ ·)).get
          ⟨(⌊(0.95 : ℚ) * (([okOutcome] : List Outcome).length : ℚ)⌋).toNat, hrank⟩ :=
  c5_p95_nearest_rank.1 [okOutcome] ⟨1, 1, 0, 10, 10⟩
    (by norm_num [summarize, okOutcome, idx95_eq_div])

/-- C8: the metrics window is reset before the 50% stage, so that stage's
recorded analysis is a function of the 50%-stage requests alone (the
10%-stage stream does not appear in it), and when every 50%-stage outcome is
a success both its summaries report an error rate of exactly 0 even if every
10%-stage outcome was a failure. -/
theorem c8_window_isolation (r1 r2 r3 : List Request)
    (hfail : ∀ q ∈ r1, q.onStable.success = false ∧ q.onCanary.success = false)
    (hsucc : ∀ q ∈ r2, q.onStable.success = true ∧ q.onCanary.success = true)
    (h1 : should_rollback (analyze_metrics (simulate_traffic 10 r1 Metrics.empty)) = false) :
    (run_canary_deployment r1 r2 r3).analyses[1]? =
      some (analyze_metrics (simulate_traffic 50 r2 Metrics.empty)) ∧
    (∀ s, (analyze_metrics (simulate_traffic 50 r2 Metrics.empty)).stable = some s →
      s.error_rate = 0) ∧
    (∀ s, (analyze_metrics (simulate_traffic 50 r2 Metrics.empty)).canary = some s →
      s.error_rate = 0) := by
  refine ⟨?_, ?_, ?_⟩
  · by_cases h2 : should_rollback (analyze_metrics (simulate_traffic 50 r2 Metrics.empty)) = true
    · simp [run_canary_deployment, h1, h2]
    · have h2' : should_rollback (analyze_metrics (simulate_traffic 50 r2 Metrics.empty))
          = false := Bool.eq_false_iff.mpr (by simpa using h2)
      simp [run_canary_deployment, h1, h2']
  · intro s hs
    refine summarize_all_success_error_rate _ s hs fun o ho => ?_
    rcases simulate_traffic_stable_mem 50 r2 Metrics.empty o ho with h | ⟨q, hq, rfl⟩
    · cases h
    · exact (hsucc q hq).1
  · intro s hs
    refine summarize_all_success_error_rate _ s hs fun o ho => ?_
    rcases simulate_traffic_canary_mem 50 r2 Metrics.empty o ho with h | ⟨q, hq, rfl⟩
    · cases h
    · exact (hsucc q hq).2

/-- A 10%-stage stream whose two outcomes both fail (one routed to each
variant), with equal latencies so only the error-rate check could fire. -/
def allFailStream : List Request := [⟨5, badOutcome, badOutcome⟩, ⟨80, badOutcome, badOutcome⟩]

/-- A 50%-stage stream whose two outcomes both succeed (one routed to each
variant). -/
def allOkStream : List Request := [⟨5, okOutcome, okOutcome⟩, ⟨80, okOutcome, okOutcome⟩]

/-- Witness for C8: a run whose 10% stage is 100% failures (on both
variants, so no rollback fires) followed by an all-success 50% stage; the
recorded 50% analysis is exactly the analysis of the 50% traffic alone, with
error rate 0 on both variants. -/
theorem c8_window_isolation_witness :
    (run_canary_deployment allFailStream allOkStream []).analyses[1]? =
      some (analyze_metrics (simulate_traffic 50 allOkStream Metrics.empty)) ∧
    (∀ s, (analyze_metrics (simulate_traffic 50 allOkStream Metrics.empty)).stable = some s →
      s.error_rate = 0) ∧
    (∀ s, (analyze_metrics (simulate_traffic 50 allOkStream Metrics.empty)).canary = some s →
      s.error_rate = 0) := by
  refine c8_window_isolation allFailStream allOkStream []
    (by simp [allFailStream, badOutcome]) (by simp [allOkStream, okOutcome]) ?_
  norm_num [allFailStream, simulate_traffic, use_canary, analyze_metrics, summarize,
    Metrics.empty, should_rollback, badOutcome, idx95_eq_div]

end Canary
